import Mathlib

/-
Shallow embedding of the cephadm orchestrator core
(src/pybind/mgr/cephadm/module.py of zoumingzhe/ceph) together with the
service-spec serialization model (src/python-common).

Conventions of the embedding:
* Remote agent invocations (`_run_cephadm`) are represented by values of
  `Cephadm.Action`; their exit codes are supplied as inputs where a claim
  depends on them.
* Python dicts keyed by strings become association lists
  `List (String × _)`; dict assignment is modelled as filter-then-append.
* Randomness (`random.choice`) is supplied as a tape of pre-drawn values.
* Store/cache primitives whose implementation lives outside the provided
  sources (Inventory, HostCache, SpecStore, PlacementSpec helpers) are
  modelled from the specification document; each such definition carries a
  doc comment starting with "Modelled from the spec:".
-/

namespace Cephadm

/-- The single-quote character, used verbatim in several source messages. -/
def sq : String := (Char.ofNat 39).toString

/-! ## JSON-like values (for service-spec serialization) -/

/-- A JSON/YAML-mapping value as produced by `yaml.safe_load` /
consumed by `ServiceSpec.from_json`.  Objects keep key order (PyYAML dumps
with a deterministic key order). -/
inductive JVal where
  | s (v : String)
  | b (v : Bool)
  | n (v : Int)
  | arr (vs : List JVal)
  | obj (kvs : List (String × JVal))

/-! ## Service specs (data model of §3 / python-common) -/

/-- `HostPlacementSpec`: `(hostname, network, name)`. -/
structure HostPlacementSpec where
  hostname : String
  network : String
  name : String
  deriving DecidableEq

/-- `PlacementSpec`: optional count combined with explicit hosts, a label or
a host pattern. -/
structure PlacementSpec where
  count : Option Int
  hosts : List HostPlacementSpec
  label : Option String
  host_pattern : Option String
  deriving DecidableEq

/-- Modelled from the spec: `PlacementSpec.is_empty` (the implementation
lives in src/python-common/ceph/deployment/service_spec.py, which is not
under src/).  Empty placement means no count, no hosts, no label and no
host pattern (§3: "Empty placement means use defaults"). -/
def PlacementSpec.is_empty (p : PlacementSpec) : Bool :=
  p.count.isNone && p.hosts.isEmpty && p.label.isNone && p.host_pattern.isNone

/-- The all-empty placement. -/
def emptyPlacement : PlacementSpec := ⟨none, [], none, none⟩

/-- Modelled from the spec: a `ServiceSpec` (§3, §6 schema).  The
type-specific `spec:` payload is kept verbatim as `params`. -/
structure ServiceSpec where
  service_type : String
  service_id : Option String
  placement : PlacementSpec
  unmanaged : Bool
  preview_only : Bool
  params : List (String × JVal)

/-- The `service_type` enumeration of §3. -/
def KNOWN_SERVICE_TYPES : List String :=
  ["mon", "mgr", "osd", "mds", "rgw", "rbd-mirror", "nfs", "iscsi",
   "grafana", "alertmanager", "prometheus", "node-exporter", "crash"]

/-- `(service_type, service_id)` forms the service name (`type[.id]`). -/
def ServiceSpec.service_name (s : ServiceSpec) : String :=
  match s.service_id with
  | some i => s.service_type ++ "." ++ i
  | none => s.service_type

/-- The spec store contents: service name → spec. -/
abbrev SpecStoreT := List (String × ServiceSpec)

/-- Modelled from the spec: `SpecStore.save(spec)` stores the spec under its
service name (§4.3). -/
def specSave (store : SpecStoreT) (s : ServiceSpec) : SpecStoreT :=
  store.filter (fun kv => kv.1 != s.service_name) ++ [(s.service_name, s)]

/-- Modelled from the spec: `SpecStore.rm(name)` returns whether the entry
existed, and the store without it (§4.3). -/
def specRm (store : SpecStoreT) (n : String) : Bool × SpecStoreT :=
  (store.any (fun kv => kv.1 == n), store.filter (fun kv => kv.1 != n))

/-! ## Daemons, actions, events, health checks -/

/-- A cached daemon description (`orchestrator.DaemonDescription`), with only
the fields the claims touch.  `service_name` is carried as a field: its
computation lives in the external `orchestrator` package. -/
structure DaemonDescription where
  daemon_type : String
  daemon_id : String
  hostname : String
  service_name : String
  deriving DecidableEq

/-- The daemon name `"{type}.{id}"` (built without braces here). -/
def DaemonDescription.name (d : DaemonDescription) : String :=
  d.daemon_type ++ "." ++ d.daemon_id

/-- `name.split(".", 1)`: the part before the first dot and the rest. -/
def splitName (n : String) : String × String :=
  let l := n.toList
  (String.mk (l.takeWhile (fun c => c ≠ '.')),
   String.mk ((l.dropWhile (fun c => c ≠ '.')).drop 1))

/-- Externally visible side effects of the orchestrator that the claims
talk about: agent invocations and driver hooks. -/
inductive Action where
  | rmDaemon (name host : String)
  | deploy (name host : String)
  | preRemove (daemon_type daemon_id : String)
  deriving DecidableEq

/-- A published health check (§4.15 / `self.health_checks` entries). -/
structure HealthCheck where
  severity : String
  summary : String
  count : Nat
  detail : List String
  deriving DecidableEq

/-- Event level of `OrchestratorEvent`. -/
inductive EventLevel where
  | info
  | err
  deriving DecidableEq

/-- Error kinds surfaced to callers, following the taxonomy of §7.
`invalidArg` stands for bad-spec/bad-id validation failures
(`OrchestratorValidationError` and the bad-spec `OrchestratorError`
raises), `orchestratorError` for the remaining generic raises. -/
inductive OrchError where
  | invalidArg (msg : String)
  | notFound (msg : String)
  | alreadyExists (msg : String)
  | orchestratorError (msg : String)
  | keyError (k : String)
  deriving DecidableEq

/-! ## C1: `_remove_daemon` and the orphan check of `_check_daemons` -/

/-- `_remove_daemon` (module.py:1952): `name.split(".", 1)`, the driver
`pre_remove` hook, then exactly one `rm-daemon` agent call.  The driver
table lookup and `pre_remove` are modelled as total (they perform no
`rm-daemon` call); the agent exit code only decides a cache eviction, not
whether the call happens, so it is not a parameter here. -/
def remove_daemon (n host : String) : List Action :=
  [Action.preRemove (splitName n).1 (splitName n).2, Action.rmDaemon n host]

/-- The orphan condition of `_check_daemons` (module.py:2128-2129): no spec
under the daemon's service name and the type is not an implicit-spec type. -/
def IsOrphan (specs : SpecStoreT) (dd : DaemonDescription) : Prop :=
  (specs.lookup dd.service_name).isNone = true ∧
    dd.daemon_type ∉ (["mon", "mgr", "osd"] : List String)

instance (specs : SpecStoreT) (dd : DaemonDescription) :
    Decidable (IsOrphan specs dd) := by
  unfold IsOrphan; infer_instance

/-- The agent actions `_check_daemons` (module.py:2122) issues for one cached
daemon: remove it when orphaned (note the source does not `continue` after
the removal), then — unless its service is unmanaged — reconfigure it when
the dependency/monmap comparison of lines 2149-2169 asks for it.  That
comparison is abstracted as the `needsReconfig` oracle; a reconfigure is a
`deploy` agent call (`_create_daemon(..., reconfig=True)`).  The trailing
`daemon_check_post` hooks issue no agent calls and are elided. -/
def checkDaemonBlock (specs : SpecStoreT)
    (needsReconfig : DaemonDescription → Bool) (dd : DaemonDescription) :
    List Action :=
  (if IsOrphan specs dd then remove_daemon dd.name dd.hostname else []) ++
  (if ((specs.lookup dd.service_name).map (fun s => s.unmanaged)).getD false
   then []
   else if needsReconfig dd then [Action.deploy dd.name dd.hostname] else [])

/-- One pass of `_check_daemons` over the cached daemons, as the list of
agent actions issued (exception-free execution). -/
def check_daemons_actions (specs : SpecStoreT)
    (needsReconfig : DaemonDescription → Bool)
    (daemons : List DaemonDescription) : List Action :=
  (daemons.map (checkDaemonBlock specs needsReconfig)).flatten

/-! ## C2: the serve loop, pause/resume, paused health -/

/-- The stages of one serve-loop iteration (§4.8 / module.py:480-519). -/
inductive Stage where
  | refresh
  | strays
  | pausedHealth
  | removalQueue
  | migrate
  | applyAll
  | checkDaemons
  | upgradeStep
  deriving DecidableEq

/-- Which stages one iteration of `serve` (module.py:488-513) runs, given the
paused flag, whether `migration.is_migration_ongoing()` holds after
`migrate()`, and whether `_apply_all_services()` reported work (each of the
two `continue`s restarts the loop, skipping the later stages). -/
def serveStages (paused migrationOngoing applyDidWork : Bool) : List Stage :=
  [Stage.refresh, Stage.strays, Stage.pausedHealth] ++
  (if paused then [] else
    [Stage.removalQueue, Stage.migrate] ++
    (if migrationOngoing then [] else
      [Stage.applyAll] ++
      (if applyDidWork then [] else [Stage.checkDaemons, Stage.upgradeStep])))

/-- The loop-control state touched by `pause`/`resume`/`shutdown`. -/
structure LoopState where
  run : Bool
  paused : Bool
  wake : Bool
  deriving DecidableEq

/-- `pause` (module.py:579): sets the flag (persisted) and wakes the loop;
a no-op when already paused. -/
def pause (s : LoopState) : LoopState :=
  if s.paused then s else { s with paused := true, wake := true }

/-- `resume` (module.py:587): clears the flag when set and unconditionally
wakes the loop.  No process restart: `run` is untouched. -/
def resume (s : LoopState) : LoopState :=
  { s with paused := false, wake := true }

/-- The `CEPHADM_PAUSED` health check published by `_update_paused_health`
(module.py:522). -/
def pausedHealthCheck : HealthCheck :=
  ⟨"warning", "cephadm background work is paused", 1,
   [sq ++ "ceph orch resume" ++ sq ++ " to resume"]⟩

/-- `_update_paused_health` (module.py:522): add the `CEPHADM_PAUSED` check
when paused, drop it otherwise (dict assignment/deletion on the health
map). -/
def updatePausedHealth (paused : Bool)
    (health : List (String × HealthCheck)) : List (String × HealthCheck) :=
  if paused then
    health.filter (fun kv => kv.1 != "CEPHADM_PAUSED") ++
      [("CEPHADM_PAUSED", pausedHealthCheck)]
  else
    health.filter (fun kv => kv.1 != "CEPHADM_PAUSED")

/-! ## C3: `_check_for_strays` -/

/-- One entry of `self.list_servers()`: a host and the `(type, id)` pairs of
the daemons observed on it (`item["services"]`). -/
structure Server where
  hostname : String
  daemons : List (String × String)
  deriving DecidableEq

/-- `"%s.%s" % (s.get("type"), s.get("id"))`. -/
def strayName (td : String × String) : String := td.1 ++ "." ++ td.2

/-- The `missing_names` list collected for one server item
(module.py:442-447): all its daemon names when the host is not in the
Inventory, nothing otherwise. -/
def serverMissingNames (inventory : List String) (it : Server) : List String :=
  if it.hostname ∈ inventory then [] else it.daemons.map strayName

/-- Python `repr` of a list of strings, as interpolated by `"%s" % list`. -/
def pyListRepr (l : List String) : String :=
  "[" ++ String.intercalate ", " (l.map (fun v => sq ++ v ++ sq)) ++ "]"

/-- One `host_detail` line (module.py:452-454). -/
def strayHostLine (inventory : List String) (it : Server) : String :=
  "stray host " ++ it.hostname ++ " has " ++
    toString (serverMissingNames inventory it).length ++
    " stray daemons: " ++ pyListRepr (serverMissingNames inventory it)

/-- One `daemon_detail` line (module.py:449-450). -/
def strayDaemonLine (host : String) (td : String × String) : String :=
  "stray daemon " ++ strayName td ++ " on host " ++ host ++
    " not managed by cephadm"

/-- The `host_detail` list: one line per server that has missing names. -/
def hostDetailLines (inventory : List String) (servers : List Server) :
    List String :=
  (servers.filter (fun it => !(serverMissingNames inventory it).isEmpty)).map
    (strayHostLine inventory)

/-- `host_num_daemons`: daemons counted on hosts absent from the
Inventory. -/
def strayHostDaemonCount (inventory : List String) (servers : List Server) :
    Nat :=
  (servers.map (fun it => (serverMissingNames inventory it).length)).sum

/-- The `daemon_detail` list: one line per observed daemon whose name is not
in `cache.get_daemon_names()` — note the source tests this independently of
whether the host is in the Inventory. -/
def daemonDetailLines (managed : List String) (servers : List Server) :
    List String :=
  (servers.map (fun it =>
    (it.daemons.filter (fun td => !(managed.contains (strayName td)))).map
      (strayDaemonLine it.hostname))).flatten

/-- `_check_for_strays` (module.py:427-472): drop both stray checks from the
health map, and when either warn flag is set re-add those with nonempty
detail.  Returns the updated health map and the agent actions issued (none:
this stage only reports). -/
def check_for_strays (warnHosts warnDaemons : Bool)
    (inventory managed : List String) (servers : List Server)
    (health : List (String × HealthCheck)) :
    List (String × HealthCheck) × List Action :=
  let h0 := health.filter (fun kv =>
    kv.1 != "CEPHADM_STRAY_HOST" && kv.1 != "CEPHADM_STRAY_DAEMON")
  if warnHosts || warnDaemons then
    let hostDetail := hostDetailLines inventory servers
    let daemonDetail := daemonDetailLines managed servers
    let h1 :=
      if warnHosts && !hostDetail.isEmpty then
        h0 ++ [("CEPHADM_STRAY_HOST",
          ⟨"warning",
           toString hostDetail.length ++ " stray host(s) with " ++
             toString (strayHostDaemonCount inventory servers) ++
             " daemon(s) not managed by cephadm",
           hostDetail.length, hostDetail⟩)]
      else h0
    let h2 :=
      if warnDaemons && !daemonDetail.isEmpty then
        h1 ++ [("CEPHADM_STRAY_DAEMON",
          ⟨"warning",
           toString daemonDetail.length ++
             " stray daemons(s) not managed by cephadm",
           daemonDetail.length, daemonDetail⟩)]
      else h1
    (h2, [])
  else (h0, [])

/-! ## C4: the ok-to-stop gate of `_apply_service` -/

/-- The removal gate of `_apply_service` (module.py:2089-2091): while the
removal set is nonempty and `ok_to_stop` over its daemon ids vetoes, pop one
member.  `set.pop()` removes an unspecified element; the embedding pops the
head.  Returns the surviving set and the number of `ok_to_stop` checks
made. -/
def okToStopGate (ok : List String → Bool) :
    List DaemonDescription → List DaemonDescription × Nat
  | [] => ([], 0)
  | d :: rest =>
    if ok ((d :: rest).map (fun x => x.daemon_id)) then (d :: rest, 1)
    else ((okToStopGate ok rest).1, (okToStopGate ok rest).2 + 1)

/-- The remove half of `_apply_service` (module.py:2089-2096): run the gate,
then `_remove_daemon` each survivor. -/
def apply_service_removals (ok : List String → Bool)
    (toRemove : List DaemonDescription) : List Action :=
  (((okToStopGate ok toRemove).1).map
    (fun d => remove_daemon d.name d.hostname)).flatten

/-! ## C5: `get_unique_name` -/

/-- The daemon types that get no random suffix (module.py:602-605). -/
def SUFFIX_EXEMPT_TYPES : List String :=
  ["mon", "crash", "nfs", "prometheus", "node-exporter", "grafana",
   "alertmanager"]

/-- `host.split(".")[0]` when the host name contains a dot
(module.py:611-612). -/
def shortHostname (host : String) : String :=
  String.mk (host.toList.takeWhile (fun c => c ≠ '.'))

/-- The `[prefix + "."] + shortHost` stem built at module.py:613-618. -/
def uniqueNameBase (pfx : Option String) (host : String) : String :=
  (match pfx with | some p => p ++ "." | none => "") ++ shortHostname host

/-- The retry loop of `get_unique_name` for suffixed types
(module.py:613-627): append a drawn 6-letter suffix, retry on collision.
The source draws fresh randomness forever; the embedding consumes a finite
tape and fails once it is exhausted (reachable only when every tape entry
collides). -/
def genSuffixLoop (existing : List DaemonDescription) (base : String) :
    List String → Except OrchError String
  | [] => .error (.invalidArg "random suffix tape exhausted")
  | r :: rs =>
    let n := base ++ "." ++ r
    if (existing.filter (fun d => d.daemon_id == n)).length ≠ 0 then
      genSuffixLoop existing base rs
    else .ok n

/-- `get_unique_name` (module.py:596-627).  `tape` supplies the pre-drawn
random suffixes.  The loop body for non-suffixed types uses no randomness
and always decides on its first iteration, so it is written without the
loop. -/
def get_unique_name (daemon_type host : String)
    (existing : List DaemonDescription) (pfx forcename : Option String)
    (tape : List String) : Except OrchError String :=
  match forcename with
  | some f =>
    if (existing.filter (fun d => d.daemon_id == f)).length ≠ 0 then
      .error (.invalidArg ("name " ++ daemon_type ++ "." ++ f ++
        " already in use"))
    else .ok f
  | none =>
    let base := uniqueNameBase pfx host
    if daemon_type ∉ SUFFIX_EXEMPT_TYPES then
      genSuffixLoop existing base tape
    else if (existing.filter (fun d => d.daemon_id == base)).length ≠ 0 then
      .error (.invalidArg ("name " ++ daemon_type ++ "." ++ base ++
        " already in use"))
    else .ok base

/-- "Six random lowercase letters". -/
def SixLower (r : String) : Prop :=
  r.length = 6 ∧ r.toList.all (fun c => decide (c ≥ 'a') && decide (c ≤ 'z'))

/-! ## C6: the deploy tail of `_create_daemon` -/

/-- A cache entry value, as primed by the deploy path (status and
description fields of `DaemonDescription`). -/
structure CachedDaemon where
  daemon_type : String
  daemon_id : String
  hostname : String
  status : Int
  status_desc : String
  deriving DecidableEq

/-- The daemon types registered for post actions (module.py:1934). -/
def POST_ACTION_TYPES : List String :=
  ["grafana", "iscsi", "prometheus", "alertmanager", "nfs"]

/-- The observable effects of the tail of `_create_daemon`
(module.py:1918-1946) after the `deploy` agent call returned `code`. -/
structure CreateDaemonResult where
  placeholder : Option CachedDaemon
  postAction : Bool
  invalidatedHostDaemons : Bool
  configDepsRecorded : Option (List String × Nat)
  savedHost : Bool
  events : List (EventLevel × String)
  deriving DecidableEq

/-- The tail of `_create_daemon` (module.py:1918-1946): on exit code 0 with
the host present in `cache.daemons`, prime a placeholder description with
`status=1, status_desc="starting"` (and register post actions for the types
that need them); unconditionally invalidate the host daemon cache, record
`(deps, start_time)` in `daemon_config_deps` and save the host; emit an
INFO event on success and an ERROR event carrying stderr on failure. -/
def create_daemon (daemon_type daemon_id host : String) (deps : List String)
    (startTime : Nat) (hostInCache : Bool) (code : Nat) (errOut : String)
    (reconfig : Bool) : CreateDaemonResult :=
  let n := daemon_type ++ "." ++ daemon_id
  let what := if reconfig then "reconfigure" else "deploy"
  let msg := (if reconfig then "Reconfigured " else "Deployed ") ++ n ++
    " on host " ++ sq ++ host ++ sq
  { placeholder :=
      if code = 0 ∧ hostInCache = true then
        some ⟨daemon_type, daemon_id, host, 1, "starting"⟩
      else none
  , postAction :=
      if code = 0 ∧ hostInCache = true ∧ daemon_type ∈ POST_ACTION_TYPES
      then true else false
  , invalidatedHostDaemons := true
  , configDepsRecorded := some (deps, startTime)
  , savedHost := true
  , events :=
      if code = 0 then [(EventLevel.info, msg)]
      else [(EventLevel.err, "Failed to " ++ what ++ ": " ++ errOut)] }

/-! ## C7: `_apply_service_spec` -/

/-- The default-placement table of `_apply_service_spec`
(module.py:2317-2330); `none` models the `KeyError` a type outside the
table would raise. -/
def placementDefaults : String → Option PlacementSpec
  | "mon" => some ⟨some 5, [], none, none⟩
  | "mgr" => some ⟨some 2, [], none, none⟩
  | "mds" => some ⟨some 2, [], none, none⟩
  | "rgw" => some ⟨some 2, [], none, none⟩
  | "iscsi" => some ⟨some 1, [], none, none⟩
  | "rbd-mirror" => some ⟨some 2, [], none, none⟩
  | "nfs" => some ⟨some 1, [], none, none⟩
  | "grafana" => some ⟨some 1, [], none, none⟩
  | "alertmanager" => some ⟨some 1, [], none, none⟩
  | "prometheus" => some ⟨some 1, [], none, none⟩
  | "node-exporter" => some ⟨none, [], none, some "*"⟩
  | "crash" => some ⟨none, [], none, some "*"⟩
  | _ => none

/-- `_apply_service_spec` (module.py:2314-2348): fill in default placement
when empty, reject `count < 1` for mon/mgr (the source raises
`OrchestratorError`, a bad-spec rejection, hence `invalidArg` in the §7
taxonomy), run the external `HostAssignment(...).validate()` (supplied as
the `validate` oracle), then save and kick the serve loop.  Returns the
outcome, the resulting spec store and whether the loop was kicked. -/
def apply_service_spec (validate : ServiceSpec → Option OrchError)
    (store : SpecStoreT) (spec : ServiceSpec) :
    Except OrchError String × SpecStoreT × Bool :=
  let finish := fun (s2 : ServiceSpec) =>
    match validate s2 with
    | some e => ((.error e : Except OrchError String), store, false)
    | none =>
      ((.ok ("Scheduled " ++ s2.service_name ++ " update...") :
        Except OrchError String), specSave store s2, true)
  if spec.placement.is_empty then
    match placementDefaults spec.service_type with
    | none => (.error (.keyError spec.service_type), store, false)
    | some p => finish { spec with placement := p }
  else if (spec.service_type == "mon" || spec.service_type == "mgr") &&
      (match spec.placement.count with
       | some c => decide (c < 1)
       | none => false) then
    (.error (.invalidArg ("cannot scale " ++ spec.service_type ++
      " service below 1")), store, false)
  else finish spec

/-! ## C8: `remove_service` -/

/-- `remove_service` (module.py:1679-1689): trigger a preview refresh (a
cache-queue append, no agent call), remove the spec, kick the serve loop
when it existed, and always return a success message.  Returns the message,
the resulting store, whether the loop was kicked, and the agent actions
issued (none: daemon removal is left to `_check_daemons`). -/
def remove_service (store : SpecStoreT) (service_name : String) :
    String × SpecStoreT × Bool × List Action :=
  let r := specRm store service_name
  if r.1 then ("Removed service " ++ service_name, r.2, true, [])
  else ("Failed to remove service. <" ++ service_name ++ "> was not found.",
    r.2, false, [])

/-! ## C10: `_add_host` -/

/-- The cluster state touched by `_add_host`: the Inventory host set, the
host cache (host → daemon list) and the offline-host set, plus the wake
event. -/
structure ClusterState where
  inventory : List String
  cache : List (String × List CachedDaemon)
  offline : List String
  wake : Bool
  deriving DecidableEq

/-- `_add_host` (module.py:1175-1196).  `valid` is the outcome of the
external `assert_valid_host` (raises on an invalid hostname before
anything else); `checkCode`/`checkErr` are the results of the remote
`check-host` call, which runs before any state change.  `Inventory.add`
is modelled from the spec (§4.1: fails with `AlreadyExists` on duplicate
add); `prime_empty_host` primes an empty cache entry (§3 lifecycle);
`offline_hosts_remove` (module.py:699) drops the host from the offline
set. -/
def add_host (valid : Bool) (checkCode : Nat) (checkErr : String)
    (hostname addr : String) (st : ClusterState) :
    Except OrchError String × ClusterState :=
  if valid = false then
    (.error (.invalidArg ("Invalid hostname " ++ hostname)), st)
  else if checkCode ≠ 0 then
    (.error (.orchestratorError ("New host " ++ hostname ++ " (" ++ addr ++
      ") failed check: " ++ checkErr)), st)
  else if hostname ∈ st.inventory then
    (.error (.alreadyExists ("host " ++ hostname ++ " already exists")), st)
  else
    (.ok ("Added host " ++ sq ++ hostname ++ sq),
     { inventory := st.inventory ++ [hostname]
     , cache := st.cache.filter (fun kv => kv.1 != hostname) ++ [(hostname, [])]
     , offline := st.offline.filter (fun h => h != hostname)
     , wake := true })

/-! ## C9: service-spec serialization (modelled from the spec) -/

/-- Modelled from the spec: dict lookup used by `ServiceSpec.from_json`
(the parser lives in src/python-common/ceph/deployment/service_spec.py,
which is not under src/). -/
def getField : List (String × JVal) → String → Option JVal
  | [], _ => none
  | (k, v) :: t, k2 => if k = k2 then some v else getField t k2

/-- A key emitted only when its value is present. -/
def optField (k : String) : Option JVal → List (String × JVal)
  | some v => [(k, v)]
  | none => []

/-- Modelled from the spec: JSON form of a `HostPlacementSpec` as dumped in
`--format yaml` output (test_service_spec.py:143-146 shows the key set and
order: hostname, name, network). -/
def hostPlacementToJson (h : HostPlacementSpec) : JVal :=
  .obj [("hostname", .s h.hostname), ("name", .s h.name),
        ("network", .s h.network)]

/-- Modelled from the spec: the key/value list of a dumped `PlacementSpec`
(keys in PyYAML dump order; absent fields omitted, as in
test_service_spec.py:127-166). -/
def placementFields (p : PlacementSpec) : List (String × JVal) :=
  optField "count" (p.count.map JVal.n) ++
  optField "host_pattern" (p.host_pattern.map JVal.s) ++
  optField "hosts" (if p.hosts.isEmpty then none
    else some (.arr (p.hosts.map hostPlacementToJson))) ++
  optField "label" (p.label.map JVal.s)

/-- Modelled from the spec: the key/value list of a dumped `ServiceSpec`
(§6 schema; default-valued fields omitted, `service_name` always emitted,
as in test_service_spec.py:127-166). -/
def specFields (s : ServiceSpec) : List (String × JVal) :=
  [("service_type", .s s.service_type)] ++
  optField "service_id" (s.service_id.map JVal.s) ++
  [("service_name", .s s.service_name)] ++
  optField "placement" (if s.placement.is_empty then none
    else some (.obj (placementFields s.placement))) ++
  optField "unmanaged" (if s.unmanaged then some (.b true) else none) ++
  optField "preview_only" (if s.preview_only then some (.b true) else none) ++
  optField "spec" (if s.params.isEmpty then none
    else some (.obj s.params))

/-- Modelled from the spec: `ServiceSpec.to_json` / the YAML dump. -/
def specToJson (s : ServiceSpec) : JVal := .obj (specFields s)

/-- Expect a JSON string. -/
def jStr : JVal → Except OrchError String
  | .s v => .ok v
  | _ => .error (.invalidArg "expected a string")

/-- Expect a JSON bool. -/
def jBool : JVal → Except OrchError Bool
  | .b v => .ok v
  | _ => .error (.invalidArg "expected a bool")

/-- Expect a JSON int. -/
def jInt : JVal → Except OrchError Int
  | .n v => .ok v
  | _ => .error (.invalidArg "expected an int")

/-- Parse an optional field with the given parser. -/
def parseOpt {α : Type} (f : JVal → Except OrchError α) :
    Option JVal → Except OrchError (Option α)
  | none => .ok none
  | some v =>
    match f v with
    | .error e => .error e
    | .ok a => .ok (some a)

/-- Modelled from the spec: parse one `hosts:` entry (object form; the
`host[:network][=name]` string shorthand the real parser also accepts is
not dumped and not modelled). -/
def hostPlacementFromJson (v : JVal) : Except OrchError HostPlacementSpec :=
  match v with
  | .obj kvs =>
    match getField kvs "hostname" with
    | some (.s hn) =>
      match (match getField kvs "name" with
             | none => (.ok "" : Except OrchError String)
             | some w => jStr w) with
      | .error e => .error e
      | .ok nm =>
        match (match getField kvs "network" with
               | none => (.ok "" : Except OrchError String)
               | some w => jStr w) with
        | .error e => .error e
        | .ok nw => .ok ⟨hn, nw, nm⟩
    | _ => .error (.invalidArg "hosts entry needs a hostname")
  | _ => .error (.invalidArg "hosts entry must be an object")

/-- Parse a list of `hosts:` entries. -/
def parseHostsList : List JVal → Except OrchError (List HostPlacementSpec)
  | [] => .ok []
  | v :: vs =>
    match hostPlacementFromJson v with
    | .error e => .error e
    | .ok h =>
      match parseHostsList vs with
      | .error e => .error e
      | .ok t => .ok (h :: t)

/-- Modelled from the spec: `PlacementSpec.from_json` (§6 placement
schema). -/
def placementFromJson (v : JVal) : Except OrchError PlacementSpec :=
  match v with
  | .obj kvs =>
    match parseOpt jInt (getField kvs "count") with
    | .error e => .error e
    | .ok cnt =>
      match parseOpt jStr (getField kvs "host_pattern") with
      | .error e => .error e
      | .ok hp =>
        match (match getField kvs "hosts" with
               | none => (.ok [] : Except OrchError (List HostPlacementSpec))
               | some (.arr vs) => parseHostsList vs
               | some _ => .error (.invalidArg "hosts must be a list")) with
        | .error e => .error e
        | .ok hs =>
          match parseOpt jStr (getField kvs "label") with
          | .error e => .error e
          | .ok lbl => .ok ⟨cnt, hs, lbl, hp⟩
  | _ => .error (.invalidArg "placement must be an object")

/-- Modelled from the spec: `ServiceSpec.from_json` (§6 schema; unknown
`service_type` rejects with `InvalidArg`, defaults filled for absent keys,
the derived `service_name` key is ignored on input). -/
def specFromJson (v : JVal) : Except OrchError ServiceSpec :=
  match v with
  | .obj kvs =>
    match getField kvs "service_type" with
    | some (.s t) =>
      if t ∈ KNOWN_SERVICE_TYPES then
        match parseOpt jStr (getField kvs "service_id") with
        | .error e => .error e
        | .ok sid =>
          match (match getField kvs "placement" with
                 | none => (.ok emptyPlacement :
                     Except OrchError PlacementSpec)
                 | some pv => placementFromJson pv) with
          | .error e => .error e
          | .ok pl =>
            match (match getField kvs "unmanaged" with
                   | none => (.ok false : Except OrchError Bool)
                   | some w => jBool w) with
            | .error e => .error e
            | .ok um =>
              match (match getField kvs "preview_only" with
                     | none => (.ok false : Except OrchError Bool)
                     | some w => jBool w) with
              | .error e => .error e
              | .ok po =>
                match (match getField kvs "spec" with
                       | none => (.ok [] :
                           Except OrchError (List (String × JVal)))
                       | some (.obj ps) => .ok ps
                       | some _ =>
                           .error (.invalidArg "spec must be an object")) with
                | .error e => .error e
                | .ok ps => .ok ⟨t, sid, pl, um, po, ps⟩
      else .error (.invalidArg ("Unknown service type " ++ t))
    | _ => .error (.invalidArg "service_type is required")
  | _ => .error (.invalidArg "expected an object")

/-- A valid dumped spec shape: the YAML mapping of some well-formed
`ServiceSpec` (what `--format yaml` can produce). -/
def ValidShape (d : JVal) : Prop :=
  ∃ s : ServiceSpec, s.service_type ∈ KNOWN_SERVICE_TYPES ∧ specToJson s = d

/-! ## Concrete instances used by the witnesses -/

/-- A stored mds spec. -/
def wSpecMds : ServiceSpec := ⟨"mds", some "fs1", emptyPlacement, false, false, []⟩

/-- A mon spec scaled to 0. -/
def wSpecMon0 : ServiceSpec :=
  ⟨"mon", none, ⟨some 0, [], none, none⟩, false, false, []⟩

/-- A crash spec with a host pattern (the first document of `test_yaml`). -/
def wSpecCrash : ServiceSpec :=
  ⟨"crash", none, ⟨none, [], none, some "*"⟩, false, false, []⟩

/-- A small cluster state. -/
def wClusterState : ClusterState := ⟨["h1"], [("h1", [])], ["h9"], false⟩

/-- An observed rgw daemon without a spec. -/
def wDaemonRgw : DaemonDescription := ⟨"rgw", "foo", "h1", "rgw.foo"⟩

/-- An `ok_to_stop` driver that vetoes stopping more than one daemon. -/
def wGateOk : List String → Bool := fun ids => decide (ids.length ≤ 1)

/-- A two-daemon removal set. -/
def wGateList : List DaemonDescription :=
  [⟨"mds", "a", "h1", "mds.fs1"⟩, ⟨"mds", "b", "h2", "mds.fs1"⟩]

/-! # Theorems -/

/-! ## Generalities about association-list lookup -/

/-- Lookup skips a leading segment holding no entry for the key. -/
theorem lookup_append_of_absent {β : Type} (l1 l2 : List (String × β))
    (k : String) (h : ∀ kv ∈ l1, kv.1 ≠ k) :
    (l1 ++ l2).lookup k = l2.lookup k := by
  induction l1 with
  | nil => rfl
  | cons x t ih =>
    obtain ⟨k1, v1⟩ := x
    have hk1 : k1 ≠ k := h (k1, v1) (by simp)
    have hx : (k == k1) = false :=
      beq_eq_false_iff_ne.mpr (fun he => hk1 he.symm)
    simp only [List.cons_append, List.lookup, hx]
    exact ih (fun kv hkv => h kv (by simp [hkv]))

/-- A filter on a key-disequality leaves no entry for that key. -/
theorem filter_key_ne_absent {β : Type} (l : List (String × β)) (k : String) :
    ∀ kv ∈ l.filter (fun kv => kv.1 != k), kv.1 ≠ k := by
  intro kv hkv
  have := (List.mem_filter.mp hkv).2
  simpa using this

/-- A filter on a two-key disequality leaves no entry for either key. -/
theorem filter_two_keys_absent {β : Type} (l : List (String × β))
    (k1 k2 : String) :
    ∀ kv ∈ l.filter (fun kv => kv.1 != k1 && kv.1 != k2),
      kv.1 ≠ k1 ∧ kv.1 ≠ k2 := by
  intro kv hkv
  have := (List.mem_filter.mp hkv).2
  simp at this
  exact this

/-! ## C4: the ok-to-stop gate -/

/-- The actions issued by the remove half of `_apply_service` name exactly
the survivors of the gate. -/
theorem rmDaemon_mem_apply_service_removals (ok : List String → Bool)
    (l : List DaemonDescription) (n h : String) :
    Action.rmDaemon n h ∈ apply_service_removals ok l ↔
      ∃ d ∈ (okToStopGate ok l).1, n = d.name ∧ h = d.hostname := by
  simp only [apply_service_removals, List.mem_flatten, List.mem_map]
  constructor
  · rintro ⟨block, ⟨d, hd, rfl⟩, hmem⟩
    simp only [remove_daemon, List.mem_cons, List.not_mem_nil, or_false]
      at hmem
    rcases hmem with h1 | h1
    · simp at h1
    · injection h1 with e1 e2
      subst e1; subst e2
      exact ⟨d, hd, rfl, rfl⟩
  · rintro ⟨d, hd, rfl, rfl⟩
    exact ⟨remove_daemon d.name d.hostname, ⟨d, hd, rfl⟩, by
      simp [remove_daemon]⟩

/-- C4: for every spec and scheduler-computed removal set, the gate loop of
`_apply_service` performs at most one `ok_to_stop` check per popped member
plus one on the surviving set, keeps the survivors a subset of the original
set, removes daemons only from the surviving subset, and that subset — when
nonempty — passed an `ok_to_stop` check. -/
theorem apply_service_remove_gate (ok : List String → Bool)
    (toRemove : List DaemonDescription) :
    (okToStopGate ok toRemove).1.Sublist toRemove
    ∧ (okToStopGate ok toRemove).2 ≤ toRemove.length
    ∧ ((okToStopGate ok toRemove).1 ≠ [] →
        ok (((okToStopGate ok toRemove).1).map (fun x => x.daemon_id)) = true)
    ∧ (okToStopGate ok toRemove).1.length + (okToStopGate ok toRemove).2 =
        toRemove.length +
          (if (okToStopGate ok toRemove).1.isEmpty then 0 else 1)
    ∧ (∀ n h, Action.rmDaemon n h ∈ apply_service_removals ok toRemove →
        ∃ d, d ∈ (okToStopGate ok toRemove).1 ∧ d ∈ toRemove ∧
          n = d.name ∧ h = d.hostname) := by
  induction toRemove with
  | nil =>
    refine ⟨List.Sublist.refl _, by simp [okToStopGate], ?_, ?_, ?_⟩
    · intro hne; cases hne rfl
    · simp [okToStopGate]
    · intro n h hmem
      simp [apply_service_removals, okToStopGate] at hmem
  | cons d rest ih =>
    cases hok : ok (List.map (fun x => x.daemon_id) (d :: rest)) with
    | true =>
      have hg : okToStopGate ok (d :: rest) = (d :: rest, 1) := by
        simp only [okToStopGate]; rw [hok]; simp
      refine ⟨by rw [hg], by rw [hg]; simp, by rw [hg]; intro _; exact hok,
        by rw [hg]; simp, ?_⟩
      intro n h hmem
      rcases (rmDaemon_mem_apply_service_removals ok (d :: rest) n h).mp hmem
        with ⟨d2, hd2, rfl, rfl⟩
      rw [hg] at hd2
      exact ⟨d2, by rw [hg]; exact hd2, hd2, rfl, rfl⟩
    | false =>
      have hg : okToStopGate ok (d :: rest) =
          ((okToStopGate ok rest).1, (okToStopGate ok rest).2 + 1) := by
        simp only [okToStopGate]; rw [hok]; simp
      obtain ⟨ih1, ih2, ih3, ih4, ih5⟩ := ih
      refine ⟨by rw [hg]; exact ih1.trans (List.sublist_cons_self d rest),
        by rw [hg]; simpa using Nat.succ_le_succ ih2,
        by rw [hg]; exact ih3, ?_, ?_⟩
      · rw [hg]
        cases hfe : (okToStopGate ok rest).1 with
        | nil => simp [hfe] at ih4 ⊢; omega
        | cons a b => simp [hfe] at ih4 ⊢; omega
      · intro n h hmem
        rcases (rmDaemon_mem_apply_service_removals ok (d :: rest) n h).mp
          hmem with ⟨d2, hd2, rfl, rfl⟩
        rw [hg] at hd2
        have hd2' : d2 ∈ rest := ih1.mem hd2
        exact ⟨d2, by rw [hg]; exact hd2, by simp [hd2'], rfl, rfl⟩

/-- Witness for C4 at a concrete two-daemon removal set whose full set is
vetoed: one member is popped, the survivor passes, and the issued removal
names the survivor. -/
theorem apply_service_remove_gate_witness :
    ((okToStopGate wGateOk wGateList).1 ≠ [] ∧
      wGateOk (((okToStopGate wGateOk wGateList).1).map
        (fun x => x.daemon_id)) = true)
    ∧ ∃ d, d ∈ (okToStopGate wGateOk wGateList).1 ∧ d ∈ wGateList ∧
        "mds.b" = d.name ∧ "h2" = d.hostname := by
  have h := apply_service_remove_gate wGateOk wGateList
  refine ⟨⟨by decide, h.2.2.1 (by decide)⟩, h.2.2.2.2 "mds.b" "h2" (by decide)⟩

/-! ## C6: the deploy tail of `_create_daemon` -/

/-- C6 counterexample: with a non-zero exit code the source still records
`(deps, start_time)` in `daemon_config_deps` (module.py:1937 runs outside
the `if not code` block), while the claim says that record is made only on
success. -/
theorem create_daemon_counterexample :
    (create_daemon "mds" "a" "h1" ["mon.h1"] 7 true 1 "boom"
      false).configDepsRecorded = some (["mon.h1"], 7)
    ∧ (create_daemon "mds" "a" "h1" ["mon.h1"] 7 true 1 "boom" false).events =
        [(EventLevel.err, "Failed to deploy: boom")]
    ∧ (1 : Nat) ≠ 0 := by
  refine ⟨rfl, rfl, by decide⟩

/-- C6 amended: on exit code 0 (with the host cached) the placeholder with
`status=1, status_desc="starting"` is inserted and an INFO event emitted;
on a non-zero code an ERROR event carrying stderr is emitted instead; the
host daemon cache is invalidated and `(deps, start_time)` is recorded in
`daemon_config_deps` unconditionally — on success and on failure alike. -/
theorem create_daemon_effects (dt did host : String) (deps : List String)
    (t : Nat) (hic : Bool) (code : Nat) (errOut : String) :
    (code = 0 → hic = true →
      (create_daemon dt did host deps t hic code errOut false).placeholder =
        some ⟨dt, did, host, 1, "starting"⟩)
    ∧ (create_daemon dt did host deps t hic code errOut
        false).invalidatedHostDaemons = true
    ∧ (create_daemon dt did host deps t hic code errOut
        false).configDepsRecorded = some (deps, t)
    ∧ (code = 0 →
      (create_daemon dt did host deps t hic code errOut false).events =
        [(EventLevel.info, "Deployed " ++ (dt ++ "." ++ did) ++ " on host " ++
          sq ++ host ++ sq)])
    ∧ (code ≠ 0 →
      (create_daemon dt did host deps t hic code errOut false).events =
        [(EventLevel.err, "Failed to deploy: " ++ errOut)]) := by
  refine ⟨?_, rfl, rfl, ?_, ?_⟩
  · intro h1 h2; simp [create_daemon, h1, h2]
  · intro h1; simp [create_daemon, h1]
  · intro h1; simp [create_daemon, h1]

/-- Witness for C6 (amended) at a successful grafana deploy and at a failed
mds deploy. -/
theorem create_daemon_effects_witness :
    (create_daemon "grafana" "g" "h1" [] 3 true 0 "" false).placeholder =
      some ⟨"grafana", "g", "h1", 1, "starting"⟩
    ∧ (create_daemon "mds" "a" "h1" [] 3 true 1 "x" false).events =
        [(EventLevel.err, "Failed to deploy: " ++ "x")] := by
  exact ⟨(create_daemon_effects "grafana" "g" "h1" [] 3 true 0 "").1 rfl rfl,
    (create_daemon_effects "mds" "a" "h1" [] 3 true 1 "x").2.2.2.2
      (by decide)⟩

/-! ## C7: mon/mgr cannot scale below 1 -/

/-- C7: applying a mon or mgr spec whose placement sets `count < 1` is
rejected with an `InvalidArg`-kind error before `SpecStore.save`: the store
is returned unchanged and the serve loop is not kicked. -/
theorem apply_service_spec_scale_below_one
    (validate : ServiceSpec → Option OrchError) (store : SpecStoreT)
    (spec : ServiceSpec) (c : Int)
    (ht : spec.service_type = "mon" ∨ spec.service_type = "mgr")
    (hc : spec.placement.count = some c) (hlt : c < 1) :
    apply_service_spec validate store spec =
      (.error (.invalidArg ("cannot scale " ++ spec.service_type ++
        " service below 1")), store, false) := by
  have hne : spec.placement.is_empty = false := by
    simp [PlacementSpec.is_empty, hc]
  have hcnt : (match spec.placement.count with
      | some c => decide (c < 1)
      | none => false) = true := by
    rw [hc]; exact decide_eq_true hlt
  rcases ht with h | h <;>
    simp [apply_service_spec, hne, hcnt, h]

/-- Witness for C7: a mon spec with `count = 0` is rejected and the empty
store stays empty. -/
theorem apply_service_spec_scale_below_one_witness :
    apply_service_spec (fun _ => none) [] wSpecMon0 =
      (.error (.invalidArg ("cannot scale " ++ wSpecMon0.service_type ++
        " service below 1")), [], false) :=
  apply_service_spec_scale_below_one (fun _ => none) [] wSpecMon0 0
    (Or.inl rfl) rfl (by decide)

/-! ## C8: `remove_service` is idempotent and never removes daemons -/

/-- C8: `remove_service` issues no agent actions (in particular no
`rm-daemon`); when the spec exists it is removed and the serve loop kicked,
otherwise the store is unchanged and an informational message is returned —
in both cases a success value, never an error. -/
theorem remove_service_spec (store : SpecStoreT) (n : String) :
    (remove_service store n).2.2.2 = []
    ∧ (store.any (fun kv => kv.1 == n) = true →
        remove_service store n =
          ("Removed service " ++ n,
           store.filter (fun kv => kv.1 != n), true, []))
    ∧ (store.any (fun kv => kv.1 == n) = false →
        remove_service store n =
          ("Failed to remove service. <" ++ n ++ "> was not found.",
           store, false, [])) := by
  refine ⟨?_, ?_, ?_⟩
  · unfold remove_service specRm
    by_cases h : store.any (fun kv => kv.1 == n) = true <;> simp [h]
  · intro h; simp [remove_service, specRm, h]
  · intro h
    have hfilter : store.filter (fun kv => kv.1 != n) = store := by
      rw [List.filter_eq_self]
      intro kv hkv
      have := List.any_eq_false.mp h kv hkv
      simpa using this
    simp [remove_service, specRm, h, hfilter]

/-- Witness for C8: removing a stored service and removing a missing one. -/
theorem remove_service_spec_witness :
    remove_service [("mds.fs1", wSpecMds)] "mds.fs1" =
      ("Removed service " ++ "mds.fs1", [], true, [])
    ∧ remove_service [] "rgw.x" =
      ("Failed to remove service. <" ++ "rgw.x" ++ "> was not found.",
       [], false, []) := by
  constructor
  · have h := (remove_service_spec [("mds.fs1", wSpecMds)] "mds.fs1").2.1
      (by rfl)
    rw [h]; rfl
  · exact (remove_service_spec [] "rgw.x").2.2 rfl

/-! ## C10: `_add_host` is atomic on error -/

/-- C10: `_add_host` runs the hostname validation and the remote
`check-host` before any state change; on an invalid hostname or a non-zero
check the whole state (Inventory, cache, offline set) is returned
unchanged with an error, and on success the host is in the Inventory, its
cache entry is primed empty, and it is no longer in the offline set. -/
theorem add_host_atomic (valid : Bool) (code : Nat)
    (errOut hostname addr : String) (st : ClusterState) :
    (valid = false → add_host valid code errOut hostname addr st =
      (.error (.invalidArg ("Invalid hostname " ++ hostname)), st))
    ∧ (valid = true → code ≠ 0 →
        add_host valid code errOut hostname addr st =
          (.error (.orchestratorError ("New host " ++ hostname ++ " (" ++
            addr ++ ") failed check: " ++ errOut)), st))
    ∧ (valid = true → code = 0 → hostname ∉ st.inventory →
        (add_host valid code errOut hostname addr st).1 =
          .ok ("Added host " ++ sq ++ hostname ++ sq)
        ∧ hostname ∈ (add_host valid code errOut hostname addr st).2.inventory
        ∧ ((add_host valid code errOut hostname addr st).2.cache).lookup
            hostname = some []
        ∧ hostname ∉ (add_host valid code errOut hostname addr st).2.offline
        ∧ (add_host valid code errOut hostname addr st).2.wake = true) := by
  refine ⟨?_, ?_, ?_⟩
  · intro h; simp [add_host, h]
  · intro h1 h2; simp [add_host, h1, h2]
  · intro h1 h2 h3
    have hres : add_host valid code errOut hostname addr st =
        (.ok ("Added host " ++ sq ++ hostname ++ sq),
         { inventory := st.inventory ++ [hostname]
         , cache := st.cache.filter (fun kv => kv.1 != hostname) ++
             [(hostname, [])]
         , offline := st.offline.filter (fun h => h != hostname)
         , wake := true }) := by
      simp [add_host, h1, h2, h3]
    rw [hres]
    refine ⟨rfl, by simp, ?_, by simp, rfl⟩
    rw [lookup_append_of_absent _ _ _
      (filter_key_ne_absent st.cache hostname)]
    simp [List.lookup]

/-- Witness for C10: an invalid hostname, a failed remote check, and a
successful add on a concrete state. -/
theorem add_host_atomic_witness :
    add_host false 0 "" "bad host" "1.2.3.4" wClusterState =
      (.error (.invalidArg ("Invalid hostname " ++ "bad host")),
       wClusterState)
    ∧ add_host true 1 "boom" "h9" "1.2.3.4" wClusterState =
      (.error (.orchestratorError ("New host " ++ "h9" ++ " (" ++
        "1.2.3.4" ++ ") failed check: " ++ "boom")), wClusterState)
    ∧ ((add_host true 0 "" "h9" "1.2.3.4" wClusterState).1 =
        .ok ("Added host " ++ sq ++ "h9" ++ sq)
      ∧ "h9" ∈ (add_host true 0 "" "h9" "1.2.3.4" wClusterState).2.inventory
      ∧ "h9" ∉ (add_host true 0 "" "h9" "1.2.3.4" wClusterState).2.offline) := by
  have h1 := (add_host_atomic false 0 "" "bad host" "1.2.3.4"
    wClusterState).1 rfl
  have h2 := (add_host_atomic true 1 "boom" "h9" "1.2.3.4"
    wClusterState).2.1 rfl (by decide)
  have h3 := (add_host_atomic true 0 "" "h9" "1.2.3.4"
    wClusterState).2.2 rfl rfl (by decide)
  exact ⟨h1, h2, h3.1, h3.2.1, h3.2.2.2.1⟩

/-! ## C2: pause suppresses stages 4-7, resume re-enables them -/

/-- C2: a paused serve iteration runs only refresh, strays and the paused
health check — neither the removal queue, nor migrations, nor apply-all,
nor daemon checks, nor the upgrade step — and publishes `CEPHADM_PAUSED`;
after `resume` on a paused state the flag is clear (the `run` flag is
untouched, no restart) and the next iteration runs all of stages 4-7
again, subject to the same in-iteration `continue` conditions as before
pausing. -/
theorem serve_pause_resume (mo aw : Bool) (s : LoopState)
    (health : List (String × HealthCheck)) :
    serveStages true mo aw = [Stage.refresh, Stage.strays, Stage.pausedHealth]
    ∧ Stage.removalQueue ∉ serveStages true mo aw
    ∧ Stage.migrate ∉ serveStages true mo aw
    ∧ Stage.applyAll ∉ serveStages true mo aw
    ∧ Stage.checkDaemons ∉ serveStages true mo aw
    ∧ Stage.upgradeStep ∉ serveStages true mo aw
    ∧ (updatePausedHealth true health).lookup "CEPHADM_PAUSED" =
        some pausedHealthCheck
    ∧ (pause s).paused = true
    ∧ (resume (pause s)).paused = false
    ∧ (resume (pause s)).run = s.run
    ∧ Stage.removalQueue ∈ serveStages (resume (pause s)).paused mo aw
    ∧ Stage.migrate ∈ serveStages (resume (pause s)).paused mo aw
    ∧ (mo = false →
        Stage.applyAll ∈ serveStages (resume (pause s)).paused mo aw)
    ∧ (mo = false → aw = false →
        Stage.checkDaemons ∈ serveStages (resume (pause s)).paused mo aw
        ∧ Stage.upgradeStep ∈ serveStages (resume (pause s)).paused mo aw) := by
  have hresume : (resume (pause s)).paused = false := by simp [resume]
  have hrun : (resume (pause s)).run = s.run := by
    simp [resume, pause]; split <;> rfl
  have hpause : (pause s).paused = true := by
    simp [pause]; split <;> simp_all
  have hlookup : (updatePausedHealth true health).lookup "CEPHADM_PAUSED" =
      some pausedHealthCheck := by
    rw [updatePausedHealth, if_pos rfl,
      lookup_append_of_absent _ _ _
        (filter_key_ne_absent health "CEPHADM_PAUSED")]
    simp [List.lookup]
  refine ⟨by simp [serveStages], by simp [serveStages], by simp [serveStages],
    by simp [serveStages], by simp [serveStages], by simp [serveStages],
    hlookup, hpause, hresume, hrun, ?_, ?_, ?_, ?_⟩
  · rw [hresume]; simp [serveStages]
  · rw [hresume]; simp [serveStages]
  · intro hmo; rw [hresume]; simp [serveStages, hmo]
  · intro hmo haw; rw [hresume]
    exact ⟨by simp [serveStages, hmo, haw], by simp [serveStages, hmo, haw]⟩

/-- Witness for C2 at a concrete paused state with no migration ongoing and
an idle apply stage. -/
theorem serve_pause_resume_witness :
    Stage.applyAll ∈ serveStages
      (resume (pause ⟨true, true, false⟩)).paused false false
    ∧ Stage.checkDaemons ∈ serveStages
        (resume (pause ⟨true, true, false⟩)).paused false false := by
  have h := serve_pause_resume false false ⟨true, true, false⟩ []
  exact ⟨h.2.2.2.2.2.2.2.2.2.2.2.2.1 rfl, (h.2.2.2.2.2.2.2.2.2.2.2.2.2 rfl
    rfl).1⟩

/-! ## C5: `get_unique_name` -/

/-- A successful suffix-loop result is collision-free and is the stem plus
one tape entry. -/
theorem genSuffixLoop_ok (existing : List DaemonDescription) (base : String)
    (tape : List String) (n : String)
    (h : genSuffixLoop existing base tape = .ok n) :
    (∀ d ∈ existing, d.daemon_id ≠ n) ∧ ∃ r ∈ tape, n = base ++ "." ++ r := by
  induction tape with
  | nil => simp [genSuffixLoop] at h
  | cons r rs ih =>
    simp only [genSuffixLoop] at h
    by_cases hcol :
        (existing.filter (fun d => d.daemon_id == base ++ "." ++ r)).length ≠ 0
    · rw [if_pos hcol] at h
      obtain ⟨h1, r2, hr2, heq⟩ := ih h
      exact ⟨h1, r2, by simp [hr2], heq⟩
    · rw [if_neg hcol] at h
      injection h with he
      subst he
      refine ⟨?_, r, by simp, rfl⟩
      intro d hd hde
      have hnil : existing.filter
          (fun d => d.daemon_id == base ++ "." ++ r) = [] :=
        List.eq_nil_of_length_eq_zero (by omega)
      have : d ∈ existing.filter
          (fun d => d.daemon_id == base ++ "." ++ r) := by
        rw [List.mem_filter]
        exact ⟨hd, by simp [hde]⟩
      rw [hnil] at this
      cases this

/-- C5 (amended): every id returned by `get_unique_name` is distinct from
every existing daemon id; a `forcename` is returned as given, and a
colliding one is rejected with a validation error; for suffixed types the
id is `[prefix + "."] + shortHost + "." + one drawn suffix` (six lowercase
letters when the tape is so formed), regenerated on collision; for
non-suffixed types the id is `[prefix + "."] + shortHost` and a collision
is rejected with a validation error. -/
theorem get_unique_name_spec (daemon_type host : String)
    (existing : List DaemonDescription) (pfx forcename : Option String)
    (tape : List String) :
    (∀ n, get_unique_name daemon_type host existing pfx forcename tape =
        .ok n →
      (∀ d ∈ existing, d.daemon_id ≠ n)
      ∧ (∀ f, forcename = some f → n = f)
      ∧ (forcename = none → daemon_type ∈ SUFFIX_EXEMPT_TYPES →
          n = uniqueNameBase pfx host)
      ∧ (forcename = none → daemon_type ∉ SUFFIX_EXEMPT_TYPES →
          ∃ r ∈ tape, n = uniqueNameBase pfx host ++ "." ++ r
            ∧ ((∀ r2 ∈ tape, SixLower r2) → SixLower r)))
    ∧ (∀ f, forcename = some f → (∃ d ∈ existing, d.daemon_id = f) →
        get_unique_name daemon_type host existing pfx forcename tape =
          .error (.invalidArg ("name " ++ daemon_type ++ "." ++ f ++
            " already in use")))
    ∧ (forcename = none → daemon_type ∈ SUFFIX_EXEMPT_TYPES →
        (∃ d ∈ existing, d.daemon_id = uniqueNameBase pfx host) →
        get_unique_name daemon_type host existing pfx forcename tape =
          .error (.invalidArg ("name " ++ daemon_type ++ "." ++
            uniqueNameBase pfx host ++ " already in use"))) := by
  refine ⟨?_, ?_, ?_⟩
  · intro n hok
    cases forcename with
    | some f =>
      simp only [get_unique_name] at hok
      by_cases hcol :
          (existing.filter (fun d => d.daemon_id == f)).length ≠ 0
      · rw [if_pos hcol] at hok; cases hok
      · rw [if_neg hcol] at hok
        injection hok with he
        subst he
        have hnil : existing.filter (fun d => d.daemon_id == f) = [] :=
          List.eq_nil_of_length_eq_zero (by omega)
        refine ⟨?_, ?_, ?_, ?_⟩
        · intro d hd hde
          have : d ∈ existing.filter (fun d => d.daemon_id == f) := by
            rw [List.mem_filter]; exact ⟨hd, by simp [hde]⟩
          rw [hnil] at this
          cases this
        · intro f2 hf2
          exact Option.some_injective _ hf2
        · intro h; exact Option.noConfusion h
        · intro h; exact Option.noConfusion h
    | none =>
      simp only [get_unique_name] at hok
      by_cases hsuf : daemon_type ∉ SUFFIX_EXEMPT_TYPES
      · rw [if_pos hsuf] at hok
        obtain ⟨h1, r, hr, heq⟩ := genSuffixLoop_ok existing
          (uniqueNameBase pfx host) tape n hok
        exact ⟨h1, fun f2 hf2 => Option.noConfusion hf2,
          fun _ hmem => absurd hmem hsuf,
          fun _ _ => ⟨r, hr, heq, fun hall => hall r hr⟩⟩
      · rw [if_neg hsuf] at hok
        by_cases hcol : (existing.filter
            (fun d => d.daemon_id == uniqueNameBase pfx host)).length ≠ 0
        · rw [if_pos hcol] at hok; cases hok
        · rw [if_neg hcol] at hok
          injection hok with he
          subst he
          have hnil : existing.filter
              (fun d => d.daemon_id == uniqueNameBase pfx host) = [] :=
            List.eq_nil_of_length_eq_zero (by omega)
          refine ⟨?_, fun f2 hf2 => Option.noConfusion hf2, fun _ _ => rfl,
            fun _ hns => absurd (not_not.mp hsuf) hns⟩
          intro d hd hde
          have : d ∈ existing.filter
              (fun d => d.daemon_id == uniqueNameBase pfx host) := by
            rw [List.mem_filter]; exact ⟨hd, by simp [hde]⟩
          rw [hnil] at this
          cases this
  · rintro f rfl ⟨d, hd, hde⟩
    have hcol : (existing.filter (fun d => d.daemon_id == f)).length ≠ 0 := by
      have : d ∈ existing.filter (fun d => d.daemon_id == f) := by
        rw [List.mem_filter]; exact ⟨hd, by simp [hde]⟩
      intro hz
      rw [List.eq_nil_of_length_eq_zero hz] at this
      cases this
    simp only [get_unique_name]
    rw [if_pos hcol]
  · rintro rfl hmem ⟨d, hd, hde⟩
    have hcol : (existing.filter
        (fun d => d.daemon_id == uniqueNameBase pfx host)).length ≠ 0 := by
      have : d ∈ existing.filter
          (fun d => d.daemon_id == uniqueNameBase pfx host) := by
        rw [List.mem_filter]; exact ⟨hd, by simp [hde]⟩
      intro hz
      rw [List.eq_nil_of_length_eq_zero hz] at this
      cases this
    simp only [get_unique_name]
    rw [if_neg (not_not.mpr hmem), if_pos hcol]

/-- C5 counterexample: for the non-suffixed type nfs with a prefix (the
service id, e.g. for `nfs.myfs`), the returned id is not the short
hostname — it is the prefix-qualified short hostname. -/
theorem get_unique_name_counterexample :
    get_unique_name "nfs" "host1.example.com" [] (some "myfs") none [] =
      .ok "myfs.host1"
    ∧ ("myfs.host1" : String) ≠ shortHostname "host1.example.com" := by
  refine ⟨rfl, by decide⟩

/-- Witness for C5 (amended) at a suffixed rgw daemon with prefix and a
one-entry tape. -/
theorem get_unique_name_spec_witness :
    ∃ r ∈ ["abcdef"],
      "myrgw.h1.abcdef" = uniqueNameBase (some "myrgw") "h1.dom" ++ "." ++ r
      ∧ ((∀ r2 ∈ ["abcdef"], SixLower r2) → SixLower r) := by
  have h := (get_unique_name_spec "rgw" "h1.dom" [] (some "myrgw") none
    ["abcdef"]).1 "myrgw.h1.abcdef" rfl
  exact h.2.2.2 rfl (by decide)

/-! ## C1: one orphan, one `rm-daemon` -/

/-- Per-daemon `rm-daemon` contribution of one `_check_daemons` loop body:
one matching invocation when the daemon is the orphan in question, none
otherwise (the reconfigure branch only issues `deploy`). -/
theorem count_checkDaemonBlock (specs : SpecStoreT)
    (nr : DaemonDescription → Bool) (dd : DaemonDescription) (n h : String) :
    (checkDaemonBlock specs nr dd).count (Action.rmDaemon n h) =
      if n = dd.name ∧ h = dd.hostname ∧ IsOrphan specs dd then 1 else 0 := by
  by_cases ho : IsOrphan specs dd <;>
  by_cases hu : ((specs.lookup dd.service_name).map
      (fun s => s.unmanaged)).getD false = true <;>
  by_cases hr : nr dd = true <;>
  by_cases hn : n = dd.name ∧ h = dd.hostname <;>
  simp [checkDaemonBlock, remove_daemon, ho, hu, hr, hn, List.count_cons,
    List.count_append, List.count_nil]

/-- No `_check_daemons` pass over daemons with other (name, host) pairs
issues a matching `rm-daemon`. -/
theorem check_daemons_count_zero (specs : SpecStoreT)
    (nr : DaemonDescription → Bool) (t : List DaemonDescription)
    (n h : String) (habs : ∀ y ∈ t, ¬(n = y.name ∧ h = y.hostname)) :
    (check_daemons_actions specs nr t).count (Action.rmDaemon n h) = 0 := by
  induction t with
  | nil => simp [check_daemons_actions]
  | cons x t2 ih =>
    have hx := count_checkDaemonBlock specs nr x n h
    rw [if_neg (by
      rintro ⟨h1, h2, _⟩
      exact habs x (by simp) ⟨h1, h2⟩)] at hx
    simp only [check_daemons_actions, List.map_cons, List.flatten_cons,
      List.count_append]
    rw [hx]
    simpa using ih (fun y hy => habs y (by simp [hy]))

/-- C1: for every observed daemon whose service name misses the spec store
and whose type is not mon/mgr/osd, one exception-free `_check_daemons`
pass issues exactly one `rm-daemon` invocation (via `_remove_daemon`) for
that daemon.  The (name, hostname) pairs are distinct because the cache
keys daemons by name within each host. -/
theorem check_daemons_orphan_removed_once (specs : SpecStoreT)
    (nr : DaemonDescription → Bool) (daemons : List DaemonDescription)
    (dd : DaemonDescription) (hmem : dd ∈ daemons)
    (hnodup : (daemons.map (fun d => (d.name, d.hostname))).Nodup)
    (horphan : IsOrphan specs dd) :
    (check_daemons_actions specs nr daemons).count
      (Action.rmDaemon dd.name dd.hostname) = 1 := by
  induction daemons with
  | nil => cases hmem
  | cons x t ih =>
    have hx := count_checkDaemonBlock specs nr x dd.name dd.hostname
    simp only [check_daemons_actions, List.map_cons, List.flatten_cons,
      List.count_append]
    have hnodup2 := hnodup
    rw [List.map_cons, List.nodup_cons] at hnodup2
    have hhead := hnodup2.1
    have hnodup_t := hnodup2.2
    rcases List.mem_cons.mp hmem with rfl | hmem_t
    · rw [if_pos ⟨rfl, rfl, horphan⟩] at hx
      rw [hx]
      have hz : (check_daemons_actions specs nr t).count
          (Action.rmDaemon dd.name dd.hostname) = 0 := by
        apply check_daemons_count_zero
        rintro y hy ⟨h1, h2⟩
        exact hhead (by
          rw [h1, h2]
          exact List.mem_map_of_mem (fun d => (d.name, d.hostname)) hy)
      simp only [check_daemons_actions] at hz
      omega
    · have hxz : (checkDaemonBlock specs nr x).count
          (Action.rmDaemon dd.name dd.hostname) = 0 := by
        rw [hx, if_neg]
        rintro ⟨h1, h2, _⟩
        refine hhead ?_
        have hin : (dd.name, dd.hostname) ∈
            t.map (fun d => (d.name, d.hostname)) :=
          List.mem_map_of_mem (fun d => (d.name, d.hostname)) hmem_t
        exact h1 ▸ h2 ▸ hin
      rw [hxz]
      have := ih hmem_t hnodup_t
      simp only [check_daemons_actions] at this
      omega

/-- Witness for C1: an observed `rgw.foo` daemon with no spec is removed
exactly once by a `_check_daemons` pass. -/
theorem check_daemons_orphan_removed_once_witness :
    IsOrphan [] wDaemonRgw
    ∧ (check_daemons_actions [] (fun _ => false) [wDaemonRgw]).count
        (Action.rmDaemon wDaemonRgw.name wDaemonRgw.hostname) = 1 := by
  refine ⟨by decide, ?_⟩
  exact check_daemons_orphan_removed_once [] (fun _ => false) [wDaemonRgw]
    wDaemonRgw (by simp) (by simp) (by decide)

/-! ## C3: `_check_for_strays` classification -/

/-- A server on an unmanaged host with at least one daemon contributes its
line to `host_detail`. -/
theorem mem_hostDetailLines (inventory : List String)
    (servers : List Server) (it : Server) (hit : it ∈ servers)
    (hne : serverMissingNames inventory it ≠ []) :
    strayHostLine inventory it ∈ hostDetailLines inventory servers := by
  unfold hostDetailLines
  refine List.mem_map_of_mem (strayHostLine inventory) ?_
  rw [List.mem_filter]
  refine ⟨hit, ?_⟩
  simp [List.isEmpty_iff, hne]

/-- Any observed daemon whose name is unknown to the cache contributes its
line to `daemon_detail` — independently of the Inventory. -/
theorem mem_daemonDetailLines (managed : List String)
    (servers : List Server) (it : Server) (td : String × String)
    (hit : it ∈ servers) (htd : td ∈ it.daemons)
    (hm : strayName td ∉ managed) :
    strayDaemonLine it.hostname td ∈ daemonDetailLines managed servers := by
  unfold daemonDetailLines
  rw [List.mem_flatten]
  refine ⟨(it.daemons.filter
      (fun td => !(managed.contains (strayName td)))).map
    (strayDaemonLine it.hostname), List.mem_map_of_mem _ hit, ?_⟩
  refine List.mem_map_of_mem (strayDaemonLine it.hostname) ?_
  rw [List.mem_filter]
  refine ⟨htd, ?_⟩
  simpa using hm

/-- C3 counterexample: a daemon with an unknown name on a host absent from
the Inventory is still listed under `CEPHADM_STRAY_DAEMON` — the source
tests `name not in managed` independently of the host check
(module.py:445-450) — contradicting the claim that stray daemons are only
those on managed hosts. -/
theorem check_for_strays_counterexample :
    ((check_for_strays true true ["h1"] [] [⟨"h9", [("rgw", "foo")]⟩]
        []).1).lookup "CEPHADM_STRAY_DAEMON" =
      some ⟨"warning", "1 stray daemons(s) not managed by cephadm", 1,
        ["stray daemon rgw.foo on host h9 not managed by cephadm"]⟩
    ∧ ("h9" : String) ∉ (["h1"] : List String) := by
  refine ⟨by decide, by decide⟩

/-- C3 amended: with both warn flags on, every daemon on a host absent from
the Inventory makes that host a stray host (its line carries the daemon
name), every daemon whose name is unknown to the cache is listed as a
stray daemon — whether or not its host is in the Inventory — and this
stage issues no agent actions (reporting only, no removal). -/
theorem check_for_strays_classification (inventory managed : List String)
    (servers : List Server) (health : List (String × HealthCheck))
    (it : Server) (td : String × String) (hit : it ∈ servers)
    (htd : td ∈ it.daemons) :
    (it.hostname ∉ inventory →
      ∃ hc, ((check_for_strays true true inventory managed servers
          health).1).lookup "CEPHADM_STRAY_HOST" = some hc
        ∧ strayHostLine inventory it ∈ hc.detail
        ∧ strayName td ∈ serverMissingNames inventory it)
    ∧ (strayName td ∉ managed →
      ∃ hc, ((check_for_strays true true inventory managed servers
          health).1).lookup "CEPHADM_STRAY_DAEMON" = some hc
        ∧ strayDaemonLine it.hostname td ∈ hc.detail)
    ∧ (check_for_strays true true inventory managed servers health).2 = [] := by
  refine ⟨?_, ?_, ?_⟩
  · intro hinv
    have hmn : strayName td ∈ serverMissingNames inventory it := by
      unfold serverMissingNames
      rw [if_neg hinv]
      exact List.mem_map_of_mem strayName htd
    have hne : serverMissingNames inventory it ≠ [] := by
      intro hz; rw [hz] at hmn; cases hmn
    have hline := mem_hostDetailLines inventory servers it hit hne
    have hlne : hostDetailLines inventory servers ≠ [] := by
      intro hz; rw [hz] at hline; cases hline
    refine ⟨⟨"warning",
      toString (hostDetailLines inventory servers).length ++
        " stray host(s) with " ++
        toString (strayHostDaemonCount inventory servers) ++
        " daemon(s) not managed by cephadm",
      (hostDetailLines inventory servers).length,
      hostDetailLines inventory servers⟩, ?_, hline, hmn⟩
    unfold check_for_strays
    rw [if_pos (show (true || true) = true by rfl)]
    dsimp only
    have hb : (true && !(hostDetailLines inventory servers).isEmpty)
        = true := by simp [List.isEmpty_iff, hlne]
    by_cases hde : (true && !(daemonDetailLines managed servers).isEmpty)
        = true
    · rw [if_pos hde, if_pos hb, List.append_assoc,
        lookup_append_of_absent _ _ _
          (fun kv hkv => (filter_two_keys_absent health _ _ kv hkv).1)]
      simp [List.lookup]
    · rw [if_neg hde, if_pos hb,
        lookup_append_of_absent _ _ _
          (fun kv hkv => (filter_two_keys_absent health _ _ kv hkv).1)]
      simp [List.lookup]
  · intro hm
    have hline := mem_daemonDetailLines managed servers it td hit htd hm
    have hlne : daemonDetailLines managed servers ≠ [] := by
      intro hz; rw [hz] at hline; cases hline
    refine ⟨⟨"warning",
      toString (daemonDetailLines managed servers).length ++
        " stray daemons(s) not managed by cephadm",
      (daemonDetailLines managed servers).length,
      daemonDetailLines managed servers⟩, ?_, hline⟩
    unfold check_for_strays
    rw [if_pos (show (true || true) = true by rfl)]
    dsimp only
    have hb : (true && !(daemonDetailLines managed servers).isEmpty)
        = true := by simp [List.isEmpty_iff, hlne]
    rw [if_pos hb]
    by_cases hho : (true && !(hostDetailLines inventory servers).isEmpty)
        = true
    · rw [if_pos hho, List.append_assoc,
        lookup_append_of_absent _ _ _
          (fun kv hkv => (filter_two_keys_absent health _ _ kv hkv).2)]
      simp [List.lookup]
    · rw [if_neg hho,
        lookup_append_of_absent _ _ _
          (fun kv hkv => (filter_two_keys_absent health _ _ kv hkv).2)]
      simp [List.lookup]
  · unfold check_for_strays
    simp only [if_pos rfl]
    by_cases hho : (true && !(hostDetailLines inventory servers).isEmpty)
        = true <;>
    by_cases hde : (true && !(daemonDetailLines managed servers).isEmpty)
        = true <;>
    simp [hho, hde]

/-- Witness for C3 (amended): `rgw.foo` on stray host h9 appears in both
stray details while nothing is removed. -/
theorem check_for_strays_classification_witness :
    (∃ hc, ((check_for_strays true true ["h1"] []
        [⟨"h9", [("rgw", "foo")]⟩] []).1).lookup "CEPHADM_STRAY_HOST" =
          some hc
      ∧ strayHostLine ["h1"] ⟨"h9", [("rgw", "foo")]⟩ ∈ hc.detail)
    ∧ (∃ hc, ((check_for_strays true true ["h1"] []
        [⟨"h9", [("rgw", "foo")]⟩] []).1).lookup "CEPHADM_STRAY_DAEMON" =
          some hc
      ∧ strayDaemonLine "h9" ("rgw", "foo") ∈ hc.detail)
    ∧ (check_for_strays true true ["h1"] [] [⟨"h9", [("rgw", "foo")]⟩]
        []).2 = [] := by
  have h := check_for_strays_classification ["h1"] []
    [⟨"h9", [("rgw", "foo")]⟩] [] ⟨"h9", [("rgw", "foo")]⟩ ("rgw", "foo")
    (by simp) (by simp)
  obtain ⟨hc1, e1, m1, _⟩ := h.1 (by decide)
  obtain ⟨hc2, e2, m2⟩ := h.2.1 (by decide)
  exact ⟨⟨hc1, e1, m1⟩, ⟨hc2, e2, m2⟩, h.2.2⟩

/-! ## C9: service-spec serialization round trips -/

/-- A host placement entry survives the dump/parse round trip. -/
theorem hostPlacementFromJson_toJson (h : HostPlacementSpec) :
    hostPlacementFromJson (hostPlacementToJson h) = .ok h := by
  obtain ⟨hn, nw, nm⟩ := h
  simp [hostPlacementToJson, hostPlacementFromJson, getField, jStr]

/-- A dumped host list parses back to itself. -/
theorem parseHostsList_map (hs : List HostPlacementSpec) :
    parseHostsList (hs.map hostPlacementToJson) = .ok hs := by
  induction hs with
  | nil => rfl
  | cons h t ih => simp [parseHostsList, hostPlacementFromJson_toJson, ih]

/-- A placement with `is_empty` true is the all-empty placement. -/
theorem eq_empty_of_is_empty (p : PlacementSpec) (h : p.is_empty = true) :
    p = emptyPlacement := by
  obtain ⟨c, hs, lb, hp⟩ := p
  cases c <;> cases lb <;> cases hp <;> cases hs <;>
    simp_all [PlacementSpec.is_empty, emptyPlacement]

/-- A dumped placement parses back to itself. -/
theorem placementFromJson_placementFields (p : PlacementSpec) :
    placementFromJson (.obj (placementFields p)) = .ok p := by
  obtain ⟨c, hs, lb, hp⟩ := p
  cases c <;> cases hp <;> cases lb <;> cases hs <;>
    simp [placementFields, placementFromJson, optField, getField,
      parseOpt, jInt, jStr, parseHostsList, hostPlacementFromJson_toJson,
      parseHostsList_map]

/-- A dumped spec parses back to itself. -/
theorem specFromJson_specToJson (s : ServiceSpec)
    (h : s.service_type ∈ KNOWN_SERVICE_TYPES) :
    specFromJson (specToJson s) = .ok s := by
  obtain ⟨t, sid, pl, um, po, ps⟩ := s
  cases hpe : pl.is_empty with
  | true =>
    have hempty := eq_empty_of_is_empty pl hpe
    subst hempty
    cases sid <;> cases um <;> cases po <;> cases ps <;>
      simp [specToJson, specFields, specFromJson, optField, getField, h,
        parseOpt, jStr, jBool, emptyPlacement, PlacementSpec.is_empty]
  | false =>
    cases sid <;> cases um <;> cases po <;> cases ps <;>
      simp [specToJson, specFields, specFromJson, optField, getField, h,
        hpe, parseOpt, jStr, jBool, placementFromJson_placementFields]

/-- C9: parsing a dumped well-formed spec yields the spec back
(`Spec → json → Spec` preserves equality), and every valid dumped shape —
the YAML mapping of a well-formed spec — parses to a spec that dumps to
exactly the same mapping (`yaml → Spec → yaml` is the identity on the
parsed YAML structure). -/
theorem spec_serialization_roundtrip (s : ServiceSpec) (d : JVal)
    (hs : s.service_type ∈ KNOWN_SERVICE_TYPES) :
    specFromJson (specToJson s) = .ok s
    ∧ (ValidShape d → ∃ s2, specFromJson d = .ok s2 ∧ specToJson s2 = d) := by
  refine ⟨specFromJson_specToJson s hs, ?_⟩
  rintro ⟨s2, hs2, rfl⟩
  exact ⟨s2, specFromJson_specToJson s2 hs2, rfl⟩

/-- Witness for C9 at the crash spec of `test_yaml`. -/
theorem spec_serialization_roundtrip_witness :
    specFromJson (specToJson wSpecCrash) = .ok wSpecCrash
    ∧ ∃ s2, specFromJson (specToJson wSpecCrash) = .ok s2
        ∧ specToJson s2 = specToJson wSpecCrash := by
  have h := spec_serialization_roundtrip wSpecCrash (specToJson wSpecCrash)
    (by decide)
  exact ⟨h.1, h.2 ⟨wSpecCrash, by decide, rfl⟩⟩

end Cephadm
